import Mathlib

/-!
Shallow embedding of the order-display backend in `src/router/main.py`
(menu lookup, size normalization, the two webhook endpoints, the
current-state query, persistence, and the WebSocket broadcast), together
with theorems checking the design specification against it.

Conventions of the embedding:
* Python strings are `String`; `str.lower()` is `pyLower` (per-character
  `Char.toLower`, which agrees with Python on the ASCII and Arabic data
  the system handles), `str.strip()` is `pyStrip`, `.split(",")` is
  `pySplitComma`, `", ".join` is `joinSep ", "`. These are written by
  structural recursion on the character list so that concrete instances
  evaluate inside the kernel.
* JSON numeric prices are `Rat`; quantities (`int`) are `Int`.
* The Python truthiness test `if xs:` on a list is `xs ≠ []`.
* The module-level globals `last_order_details` / `last_recommendations`
  are gathered in a `ServerState` record threaded explicitly.
* An endpoint call returns the HTTP response, the new global state, the
  list of snapshots written by `save_state`, and the list of events
  handed to `notify_clients`, in order.
-/

namespace VoiceHub

/-- Character-list prefix test: `subAt pat l` holds when `pat` is an
initial segment of `l`. Helper for the Python substring operator. -/
def subAt : List Char → List Char → Bool
  | [], _ => true
  | _ :: _, [] => false
  | a :: as, b :: bs => a == b && subAt as bs

/-- Contiguous-substring test on character lists. -/
def hasSub (pat : List Char) : List Char → Bool
  | [] => subAt pat []
  | c :: cs => subAt pat (c :: cs) || hasSub pat cs

/-- Models the Python expression `pat in s` on strings. -/
def strHasSub (s pat : String) : Bool :=
  hasSub pat.toList s.toList

/-- Models Python `str.lower()` (identity on non-Latin characters such as
the Arabic names, `A`-`Z` mapped down on ASCII). -/
def pyLower (s : String) : String :=
  String.mk (s.data.map Char.toLower)

/-- The whitespace characters stripped by Python `str.strip()`. -/
def pySpace (c : Char) : Bool :=
  c == ' ' || c == '\t' || c == '\n' || c == '\r' || c == '\x0b' || c == '\x0c'

/-- Models Python `str.strip()`: drop leading and trailing whitespace. -/
def pyStrip (s : String) : String :=
  String.mk (((s.data.dropWhile pySpace).reverse.dropWhile pySpace).reverse)

/-- Helper for `pySplitComma`: accumulates the current token reversed. -/
def splitCommaAux : List Char → List Char → List String
  | [], acc => [String.mk acc.reverse]
  | c :: cs, acc =>
    if c = ',' then String.mk acc.reverse :: splitCommaAux cs []
    else splitCommaAux cs (c :: acc)

/-- Models Python `s.split(",")` (so `""` yields `[""]` and empty tokens
between consecutive commas are kept). -/
def pySplitComma (s : String) : List String :=
  splitCommaAux s.data []

/-- Models Python `sep.join(xs)`. -/
def joinSep (sep : String) : List String → String
  | [] => ""
  | [x] => x
  | x :: xs => x ++ sep ++ joinSep sep xs

/-- A catalog record from `menu.json`: numeric/string id, English name,
Arabic name, per-size price table, currency, optional image. -/
structure MenuItem where
  item : String
  name_en : String
  name_ar : String
  sizes : List (String × Rat)
  currency : String
  image : Option String := none
deriving DecidableEq, Repr

/-- One line of an incoming order payload (`OrderItem` pydantic model);
`item_id` is the `str(...)` form of the raw id. -/
structure OrderItem where
  item_id : String
  size : String
  quantity : Int
deriving DecidableEq, Repr

/-- One stored order line, the dict
`{"menu_item": m, "size": s, "quantity": q}` built in `webhook_endpoint`. -/
structure OrderDetail where
  menu_item : MenuItem
  size : String
  quantity : Int
deriving DecidableEq, Repr

/-- One stored recommendation entry, the dict `{"menu_item": m}` built in
`recommendations_endpoint`. -/
structure RecEntry where
  menu_item : MenuItem
deriving DecidableEq, Repr

/-- The two module-level globals of `main.py`. -/
structure ServerState where
  last_order_details : List OrderDetail
  last_recommendations : List RecEntry
deriving DecidableEq, Repr

/-- The `data` field of a `/current` response or of a broadcast message. -/
inductive CurData
  | orderData (l : List OrderDetail)
  | recData (l : List RecEntry)
  | emptyData
deriving DecidableEq, Repr

/-- A JSON message `{"type": t, "data": d}` broadcast to viewers. -/
structure Event where
  type : String
  data : CurData
deriving DecidableEq, Repr

/-- HTTP response of an endpoint, carrying the error text where present. -/
inductive Resp
  | success
  | badRequest (error : String)
  | notFound (error : String)
  | serverError (error : String)
deriving DecidableEq, Repr

/-- Result of one endpoint call: response, new globals, snapshots written
by `save_state` (in order), events handed to `notify_clients` (in order). -/
structure EndpointResult where
  resp : Resp
  state : ServerState
  writes : List ServerState
  events : List Event
deriving DecidableEq, Repr

/-- Embeds `find_menu_item` (main.py lines 51-71): lowercase and strip the
reference, then return the first catalog item whose id, English name or
Arabic name (all lowercased) equals it, or whose English name contains
the substring "americano". -/
def find_menu_item (menu : List MenuItem) (item_id : String) : Option MenuItem :=
  let iid := pyStrip (pyLower item_id)
  menu.find? fun item =>
    let name_en := pyLower item.name_en
    let name_ar := pyLower item.name_ar
    let item_num := pyLower item.item
    item_num == iid || name_en == iid || strHasSub name_en "americano" || name_ar == iid

/-- Embeds `get_size_key` (main.py lines 73-84): the bilingual size map,
with unrecognized inputs passed through lowercased. -/
def get_size_key (size : String) : String :=
  let s := pyLower size
  if s = "وسط" then "medium"
  else if s = "موسط" then "medium"
  else if s = "صغير" then "small"
  else if s = "كبير" then "large"
  else if s = "medium" then "medium"
  else if s = "small" then "small"
  else if s = "large" then "large"
  else s

/-- Embeds the Python dict read `sizes.get(key, 0)` used for price lookup
in `generate_html_content`. -/
def sizes_get (sizes : List (String × Rat)) (key : String) : Rat :=
  match sizes.find? (fun p => p.1 == key) with
  | some p => p.2
  | none => 0

/-- One line of the order breakdown built in `generate_html_content`
(main.py lines 153-166). -/
structure BreakdownItem where
  name : String
  quantity : Int
  price : Rat
  subtotal : Rat
deriving DecidableEq, Repr

/-- Embeds the per-line computation of `generate_html_content`: normalize
the size, look the price up in the size table, multiply by quantity. -/
def breakdown_line (d : OrderDetail) : BreakdownItem :=
  let size := get_size_key d.size
  let price := sizes_get d.menu_item.sizes size
  { name := d.menu_item.name_en
    quantity := d.quantity
    price := price
    subtotal := price * (d.quantity : Rat) }

/-- The `breakdown_items` list accumulated by `generate_html_content`. -/
def order_breakdown (ds : List OrderDetail) : List BreakdownItem :=
  ds.map breakdown_line

/-- The running `total` accumulated by `generate_html_content`. -/
def order_total (ds : List OrderDetail) : Rat :=
  ((order_breakdown ds).map (fun b => b.subtotal)).sum

/-- Embeds the item-lookup loop of `webhook_endpoint` (main.py lines
327-346): returns the resolved lines and the ids with no catalog match,
both in payload order. -/
def resolve_items (menu : List MenuItem) : List OrderItem → List OrderDetail × List String
  | [] => ([], [])
  | it :: rest =>
    let tail := resolve_items menu rest
    match find_menu_item menu it.item_id with
    | none => (tail.1, it.item_id :: tail.2)
    | some m => ({ menu_item := m, size := it.size, quantity := it.quantity } :: tail.1, tail.2)

/-- Embeds the item-lookup loop of `recommendations_endpoint` (main.py
lines 236-253). -/
def resolve_recs (menu : List MenuItem) : List String → List RecEntry × List String
  | [] => ([], [])
  | i :: rest =>
    let tail := resolve_recs menu rest
    match find_menu_item menu i with
    | none => (tail.1, i :: tail.2)
    | some m => ({ menu_item := m } :: tail.1, tail.2)

/-- Embeds the id parsing of `recommendations_endpoint` (main.py lines
226-227): split on commas, strip, drop empty tokens. -/
def parse_item_ids (s : String) : List String :=
  ((pySplitComma s).map pyStrip).filter (fun x => x ≠ "")

/-- Embeds `webhook_endpoint` (main.py lines 289-380) after JSON parsing:
input is the validated `order_items` list. The empty-items check raises
`ValueError("No items found in order")`, caught as a 400. -/
def webhook_endpoint (menu : List MenuItem) (st : ServerState)
    (order_items : List OrderItem) : EndpointResult :=
  if order_items = [] then
    { resp := Resp.badRequest "Invalid order format: No items found in order"
      state := st, writes := [], events := [] }
  else
    let details := (resolve_items menu order_items).1
    let nf := (resolve_items menu order_items).2
    if nf ≠ [] then
      { resp := Resp.notFound ("Items not found: " ++ joinSep ", " nf)
        state := st, writes := [], events := [] }
    else if details = [] then
      { resp := Resp.badRequest "No valid items in order"
        state := st, writes := [], events := [] }
    else
      let st2 : ServerState := { st with last_order_details := details }
      { resp := Resp.success
        state := st2
        writes := [st2]
        events := [{ type := "order", data := CurData.orderData details }] }

/-- Embeds `recommendations_endpoint` (main.py lines 216-287) after JSON
parsing: input is the raw `items_ids` string. -/
def recommendations_endpoint (menu : List MenuItem) (st : ServerState)
    (items_ids : String) : EndpointResult :=
  let item_ids := parse_item_ids items_ids
  if item_ids = [] then
    { resp := Resp.badRequest "No valid item IDs provided"
      state := st, writes := [], events := [] }
  else
    let recs := (resolve_recs menu item_ids).1
    let nf := (resolve_recs menu item_ids).2
    if nf ≠ [] then
      { resp := Resp.notFound ("Items not found: " ++ joinSep ", " nf)
        state := st, writes := [], events := [] }
    else if recs = [] then
      { resp := Resp.badRequest "No valid items in recommendations"
        state := st, writes := [], events := [] }
    else
      let st2 : ServerState := { st with last_recommendations := recs }
      { resp := Resp.success
        state := st2
        writes := [st2]
        events := [{ type := "recommendations", data := CurData.recData recs }] }

/-- Embeds `get_current` (main.py lines 859-866): order lines win over
recommendations, which win over the empty answer. -/
def get_current (st : ServerState) : String × CurData :=
  if st.last_order_details ≠ [] then
    ("order", CurData.orderData st.last_order_details)
  else if st.last_recommendations ≠ [] then
    ("recommendations", CurData.recData st.last_recommendations)
  else
    ("none", CurData.emptyData)

/-- The dict pickled by `save_state`, read back with `.get(key, [])`:
either key may be absent. -/
structure PickleDict where
  lod : Option (List OrderDetail) := none
  lrec : Option (List RecEntry) := none

/-- What the state file holds at startup: absent, present but failing to
unpickle, or a successfully unpickled dict. -/
inductive FileContents
  | missing
  | unreadable
  | parsed (d : PickleDict)

/-- Embeds `load_state` (main.py lines 99-105). A missing file leaves the
globals as they are; `pickle.load` raising on unreadable contents
propagates (there is no exception handler in `load_state`), modelled as
`Except.error`; a parsed dict overwrites both globals with `.get`
defaults. -/
def load_state (st : ServerState) (file : FileContents) : Except String ServerState :=
  match file with
  | FileContents.missing => Except.ok st
  | FileContents.unreadable => Except.error "UnpicklingError"
  | FileContents.parsed d =>
      Except.ok { last_order_details := d.lod.getD []
                  last_recommendations := d.lrec.getD [] }

/-! Concrete fixtures used to instantiate theorems, following the
concrete scenarios of the specification (a catalog with the single item
id "12", name "Latte", medium price, currency KWD). -/

/-- Fixture: the Latte catalog record from the specification scenario. -/
def latte : MenuItem :=
  { item := "12", name_en := "Latte", name_ar := "لاتيه",
    sizes := [("medium", 3)], currency := "KWD" }

/-- Fixture: a one-item catalog. -/
def menu1 : List MenuItem := [latte]

/-- Fixture: the initial empty state of the two globals. -/
def stEmpty : ServerState :=
  { last_order_details := [], last_recommendations := [] }

/-- Fixture: a state currently displaying a stored order. -/
def stOrder : ServerState :=
  { last_order_details := [{ menu_item := latte, size := "medium", quantity := 2 }]
    last_recommendations := [] }

/-! Helper lemmas about the resolution loops and endpoint branches. -/

/-- The two outputs of the webhook resolution loop split the payload:
together they are as long as the input. -/
lemma resolve_items_length (menu : List MenuItem) (items : List OrderItem) :
    (resolve_items menu items).1.length + (resolve_items menu items).2.length
      = items.length := by
  induction items with
  | nil => rfl
  | cons it rest ih =>
    simp only [resolve_items]
    cases h : find_menu_item menu it.item_id <;> simp [h] <;> omega

/-- The not-found list of the webhook resolution loop is exactly the ids
of the payload lines with no catalog match, in payload order. -/
lemma resolve_items_nf_eq (menu : List MenuItem) (items : List OrderItem) :
    (resolve_items menu items).2
      = (items.filter (fun it => (find_menu_item menu it.item_id).isNone)).map
          (fun it => it.item_id) := by
  induction items with
  | nil => rfl
  | cons it rest ih =>
    simp only [resolve_items, List.filter]
    cases h : find_menu_item menu it.item_id <;> simp [h, ih]

/-- The not-found list of the recommendations resolution loop is exactly
the parsed ids with no catalog match, in payload order. -/
lemma resolve_recs_nf_eq (menu : List MenuItem) (ids : List String) :
    (resolve_recs menu ids).2 = ids.filter (fun i => (find_menu_item menu i).isNone) := by
  induction ids with
  | nil => rfl
  | cons i rest ih =>
    simp only [resolve_recs, List.filter]
    cases h : find_menu_item menu i <;> simp [h, ih]

/-- A fully resolved non-empty payload yields a non-empty line list. -/
lemma resolve_details_ne (menu : List MenuItem) (items : List OrderItem)
    (hne : items ≠ []) (hres : (resolve_items menu items).2 = []) :
    (resolve_items menu items).1 ≠ [] := by
  intro h
  have hlen := resolve_items_length menu items
  rw [h, hres] at hlen
  simp at hlen
  exact hne (List.length_eq_zero.mp hlen.symm)

/-- The success branch of `webhook_endpoint`, spelled out. -/
lemma webhook_success_case (menu : List MenuItem) (st : ServerState)
    (items : List OrderItem) (hne : items ≠ [])
    (hres : (resolve_items menu items).2 = []) :
    webhook_endpoint menu st items
      = { resp := Resp.success
          state := { st with last_order_details := (resolve_items menu items).1 }
          writes := [{ st with last_order_details := (resolve_items menu items).1 }]
          events := [{ type := "order"
                       data := CurData.orderData (resolve_items menu items).1 }] } := by
  have hd := resolve_details_ne menu items hne hres
  simp [webhook_endpoint, hne, hres, hd]

/-- The success branch of `recommendations_endpoint`, spelled out. -/
lemma recommendations_success_case (menu : List MenuItem) (st : ServerState)
    (ids_str : String) (hne : parse_item_ids ids_str ≠ [])
    (hres : (resolve_recs menu (parse_item_ids ids_str)).2 = [])
    (hrec : (resolve_recs menu (parse_item_ids ids_str)).1 ≠ []) :
    recommendations_endpoint menu st ids_str
      = { resp := Resp.success
          state := { st with last_recommendations := (resolve_recs menu (parse_item_ids ids_str)).1 }
          writes := [{ st with last_recommendations := (resolve_recs menu (parse_item_ids ids_str)).1 }]
          events := [{ type := "recommendations"
                       data := CurData.recData (resolve_recs menu (parse_item_ids ids_str)).1 }] } := by
  simp [recommendations_endpoint, hne, hres, hrec]

/-- Inversion of a successful webhook call: payload non-empty, every id
resolved, at least one line produced. -/
lemma webhook_success_inv (menu : List MenuItem) (st : ServerState)
    (items : List OrderItem)
    (h : (webhook_endpoint menu st items).resp = Resp.success) :
    items ≠ [] ∧ (resolve_items menu items).2 = []
      ∧ (resolve_items menu items).1 ≠ [] := by
  by_cases h1 : items = []
  · simp [webhook_endpoint, h1] at h
  by_cases h2 : (resolve_items menu items).2 = []
  · by_cases h3 : (resolve_items menu items).1 = []
    · simp [webhook_endpoint, h1, h2, h3] at h
    · exact ⟨h1, h2, h3⟩
  · simp [webhook_endpoint, h1, h2] at h

/-- Inversion of a successful recommendations call. -/
lemma recommendations_success_inv (menu : List MenuItem) (st : ServerState)
    (ids_str : String)
    (h : (recommendations_endpoint menu st ids_str).resp = Resp.success) :
    parse_item_ids ids_str ≠ []
      ∧ (resolve_recs menu (parse_item_ids ids_str)).2 = []
      ∧ (resolve_recs menu (parse_item_ids ids_str)).1 ≠ [] := by
  by_cases h1 : parse_item_ids ids_str = []
  · simp [recommendations_endpoint, h1] at h
  by_cases h2 : (resolve_recs menu (parse_item_ids ids_str)).2 = []
  · by_cases h3 : (resolve_recs menu (parse_item_ids ids_str)).1 = []
    · simp [recommendations_endpoint, h1, h2, h3] at h
    · exact ⟨h1, h2, h3⟩
  · simp [recommendations_endpoint, h1, h2] at h

/-! Claim theorems. -/

/-- The matching policy exactly as the specification words it, for
comparison against the source `find_menu_item`: normalize the reference
to lowercase, trimmed; a candidate matches iff the normalized reference
equals its id, its English name, or its Arabic name, or its English name
contains the substring "americano". -/
def spec_match (item : MenuItem) (ref : String) : Bool :=
  let norm := pyStrip (pyLower ref)
  norm == pyLower item.item || norm == pyLower item.name_en
    || norm == pyLower item.name_ar || strHasSub (pyLower item.name_en) "americano"

/-- C6: item lookup normalizes the reference to lowercase trimmed form and
returns the first catalog candidate matching the specification's policy
(id, English name, Arabic name, or English name containing "americano"),
reporting not-found exactly when no candidate matches. -/
theorem find_menu_item_matching_policy (menu : List MenuItem) (ref : String) :
    find_menu_item menu ref = menu.find? (fun item => spec_match item ref)
    ∧ (find_menu_item menu ref = none ↔ ∀ item ∈ menu, spec_match item ref = false) := by
  have hpt : ∀ item : MenuItem,
      (pyLower item.item == pyStrip (pyLower ref)
        || pyLower item.name_en == pyStrip (pyLower ref)
        || strHasSub (pyLower item.name_en) "americano"
        || pyLower item.name_ar == pyStrip (pyLower ref))
      = spec_match item ref := by
    intro item
    apply Bool.eq_iff_iff.mpr
    simp only [spec_match, Bool.or_eq_true, beq_iff_eq]
    tauto
  have hfind : find_menu_item menu ref = menu.find? (fun item => spec_match item ref) := by
    simp only [find_menu_item]
    congr 1
    funext item
    exact hpt item
  refine ⟨hfind, ?_⟩
  rw [hfind, List.find?_eq_none]
  simp

/-- The size vocabulary recognized by `get_size_key`. -/
def size_vocab : List String :=
  ["وسط", "موسط", "صغير", "كبير", "medium", "small", "large"]

/-- C7: the bilingual size vocabulary maps to canonical keys — the Arabic
and English words for medium, small and large normalize to the same
canonical key — every unrecognized size passes through lowercased
unchanged, and a size key absent from an item's price table prices as
zero instead of failing. -/
theorem get_size_key_normalization (s key : String) (m : MenuItem)
    (hs : pyLower s ∉ size_vocab)
    (hk : m.sizes.find? (fun p => p.1 == key) = none) :
    get_size_key "وسط" = "medium" ∧ get_size_key "medium" = "medium"
    ∧ get_size_key "صغير" = "small" ∧ get_size_key "small" = "small"
    ∧ get_size_key "كبير" = "large" ∧ get_size_key "large" = "large"
    ∧ get_size_key s = pyLower s
    ∧ sizes_get m.sizes key = 0 := by
  refine ⟨by decide, by decide, by decide, by decide, by decide, by decide, ?_, ?_⟩
  · simp only [size_vocab, List.mem_cons, List.mem_singleton] at hs
    push_neg at hs
    obtain ⟨h1, h2, h3, h4, h5, h6, h7⟩ := hs
    simp [get_size_key, h1, h2, h3, h4, h5, h6, h7]
  · simp [sizes_get, hk]

/-- Witness for C7 at the concrete inputs "Jumbo" (with the fixture
catalog item, whose price table has no "jumbo" entry). -/
theorem get_size_key_normalization_witness :
    get_size_key "وسط" = "medium" ∧ get_size_key "medium" = "medium"
    ∧ get_size_key "صغير" = "small" ∧ get_size_key "small" = "small"
    ∧ get_size_key "كبير" = "large" ∧ get_size_key "large" = "large"
    ∧ get_size_key "Jumbo" = pyLower "Jumbo"
    ∧ sizes_get latte.sizes "jumbo" = 0 :=
  get_size_key_normalization "Jumbo" "jumbo" latte (by decide) (by decide)

/-- Counterexample to C4: with unreadable (corrupt) file contents,
`load_state` propagates the unpickling error rather than falling back to
the Empty state — there is no exception handler in `load_state`, so
startup crashes instead of logging and defaulting. -/
theorem load_state_corrupt_cex :
    load_state stEmpty FileContents.unreadable = Except.error "UnpicklingError" :=
  rfl

/-- C4 (amended): `load_state` keeps the initial (Empty) globals when the
state file is missing and restores the pickled dict (with empty-list
defaults for absent keys) when it parses; when the contents are corrupt
or unparsable the unpickling error propagates out of `load_state`
uncaught, instead of being logged and defaulting to Empty. -/
theorem load_state_spec (st : ServerState) (d : PickleDict) :
    load_state st FileContents.missing = Except.ok st
    ∧ load_state st (FileContents.parsed d)
        = Except.ok { last_order_details := d.lod.getD []
                      last_recommendations := d.lrec.getD [] }
    ∧ load_state st FileContents.unreadable = Except.error "UnpicklingError" :=
  ⟨rfl, rfl, rfl⟩

/-- C2: whenever at least one referenced id fails to resolve, both the
order webhook and the recommendations webhook answer 404 with an error
text listing every unresolved id, leave the state (and hence `current()`)
untouched, persist nothing and broadcast nothing. -/
theorem unresolved_ids_reject_request
    (menu : List MenuItem) (st st2 : ServerState)
    (items : List OrderItem) (ids_str : String)
    (hw : (resolve_items menu items).2 ≠ [])
    (hr : (resolve_recs menu (parse_item_ids ids_str)).2 ≠ []) :
    webhook_endpoint menu st items
      = { resp := Resp.notFound
            ("Items not found: " ++ joinSep ", " ((resolve_items menu items).2))
          state := st, writes := [], events := [] }
    ∧ get_current (webhook_endpoint menu st items).state = get_current st
    ∧ (resolve_items menu items).2
        = (items.filter (fun it => (find_menu_item menu it.item_id).isNone)).map
            (fun it => it.item_id)
    ∧ recommendations_endpoint menu st2 ids_str
        = { resp := Resp.notFound
              ("Items not found: " ++ joinSep ", " ((resolve_recs menu (parse_item_ids ids_str)).2))
            state := st2, writes := [], events := [] }
    ∧ get_current (recommendations_endpoint menu st2 ids_str).state = get_current st2
    ∧ (resolve_recs menu (parse_item_ids ids_str)).2
        = (parse_item_ids ids_str).filter (fun i => (find_menu_item menu i).isNone) := by
  have hi : items ≠ [] := by
    intro h
    rw [h] at hw
    exact hw rfl
  have hp : parse_item_ids ids_str ≠ [] := by
    intro h
    rw [h] at hr
    exact hr rfl
  have hweb : webhook_endpoint menu st items
      = { resp := Resp.notFound
            ("Items not found: " ++ joinSep ", " ((resolve_items menu items).2))
          state := st, writes := [], events := [] } := by
    simp [webhook_endpoint, hi, hw]
  have hrec : recommendations_endpoint menu st2 ids_str
      = { resp := Resp.notFound
            ("Items not found: " ++ joinSep ", " ((resolve_recs menu (parse_item_ids ids_str)).2))
          state := st2, writes := [], events := [] } := by
    simp [recommendations_endpoint, hp, hr]
  exact ⟨hweb, by rw [hweb], resolve_items_nf_eq menu items,
         hrec, by rw [hrec], resolve_recs_nf_eq menu (parse_item_ids ids_str)⟩

/-- Witness for C2: the order payload referencing the absent id "99" and
the recommendations payload "12, 99" are both rejected with a 404 naming
"99", with no state change, no persistence and no broadcast. -/
theorem unresolved_ids_reject_request_witness :
    webhook_endpoint menu1 stOrder [{ item_id := "99", size := "medium", quantity := 1 }]
      = { resp := Resp.notFound "Items not found: 99"
          state := stOrder, writes := [], events := [] }
    ∧ recommendations_endpoint menu1 stOrder "12, 99"
      = { resp := Resp.notFound "Items not found: 99"
          state := stOrder, writes := [], events := [] } := by
  have h := unresolved_ids_reject_request menu1 stOrder stOrder
    [{ item_id := "99", size := "medium", quantity := 1 }] "12, 99"
    (by decide) (by decide)
  exact ⟨by rw [h.1]; decide, by rw [h.2.2.2.1]; decide⟩

/-- C3: a fully resolving non-empty order payload replaces the state
exactly once (a single stored snapshot, equal to the new state), the
resulting `current()` is exactly the resolved line sequence, and the
display computation gives every line a unit price looked up after size
normalization and a subtotal equal to unit price times quantity. -/
theorem valid_order_replaces_state_once
    (menu : List MenuItem) (st : ServerState) (items : List OrderItem)
    (hne : items ≠ []) (hres : (resolve_items menu items).2 = []) :
    webhook_endpoint menu st items
      = { resp := Resp.success
          state := { st with last_order_details := (resolve_items menu items).1 }
          writes := [{ st with last_order_details := (resolve_items menu items).1 }]
          events := [{ type := "order"
                       data := CurData.orderData (resolve_items menu items).1 }] }
    ∧ get_current (webhook_endpoint menu st items).state
        = ("order", CurData.orderData (resolve_items menu items).1)
    ∧ order_breakdown (resolve_items menu items).1
        = (resolve_items menu items).1.map (fun d =>
            { name := d.menu_item.name_en
              quantity := d.quantity
              price := sizes_get d.menu_item.sizes (get_size_key d.size)
              subtotal := sizes_get d.menu_item.sizes (get_size_key d.size) * (d.quantity : Rat) })
    ∧ ∀ b ∈ order_breakdown (resolve_items menu items).1,
        b.subtotal = b.price * (b.quantity : Rat) := by
  have hd := resolve_details_ne menu items hne hres
  have hcase := webhook_success_case menu st items hne hres
  refine ⟨hcase, ?_, rfl, ?_⟩
  · rw [hcase]
    simp [get_current, hd]
  · intro b hb
    simp only [order_breakdown, List.mem_map] at hb
    obtain ⟨d, hd2, rfl⟩ := hb
    rfl

/-- Witness for C3: the specification's concrete scenario — ordering two
medium Lattes at price 3 stores one resolved line, persisted once, and
yields subtotal 6. -/
theorem valid_order_replaces_state_once_witness :
    webhook_endpoint menu1 stEmpty [{ item_id := "12", size := "medium", quantity := 2 }]
      = { resp := Resp.success
          state := { last_order_details := [{ menu_item := latte, size := "medium", quantity := 2 }]
                     last_recommendations := [] }
          writes := [{ last_order_details := [{ menu_item := latte, size := "medium", quantity := 2 }]
                       last_recommendations := [] }]
          events := [{ type := "order"
                       data := CurData.orderData
                         [{ menu_item := latte, size := "medium", quantity := 2 }] }] }
    ∧ order_total [{ menu_item := latte, size := "medium", quantity := 2 }] = 6 := by
  have h := valid_order_replaces_state_once menu1 stEmpty
    [{ item_id := "12", size := "medium", quantity := 2 }] (by decide) (by decide)
  have hk : get_size_key "medium" = "medium" := by decide
  have hs : sizes_get latte.sizes "medium" = 3 := by decide
  refine ⟨?_, ?_⟩
  · rw [h.1]
    decide
  · simp [order_total, order_breakdown, breakdown_line, hk, hs]
    norm_num

/-- C5: after a successful order webhook, the single broadcast event
carries exactly the type and data that the `/current` catch-up query
returns from the new state — a pushed viewer and a catch-up viewer end
with the same display data. -/
theorem push_equals_catchup
    (menu : List MenuItem) (st : ServerState) (items : List OrderItem)
    (hne : items ≠ []) (hres : (resolve_items menu items).2 = []) :
    (webhook_endpoint menu st items).events
      = [{ type := (get_current (webhook_endpoint menu st items).state).1
           data := (get_current (webhook_endpoint menu st items).state).2 }] := by
  have hd := resolve_details_ne menu items hne hres
  rw [webhook_success_case menu st items hne hres]
  simp [get_current, hd]

/-- Witness for C5 at the concrete two-Latte order. -/
theorem push_equals_catchup_witness :
    (webhook_endpoint menu1 stEmpty [{ item_id := "12", size := "medium", quantity := 2 }]).events
      = [{ type := (get_current (webhook_endpoint menu1 stEmpty
                      [{ item_id := "12", size := "medium", quantity := 2 }]).state).1
           data := (get_current (webhook_endpoint menu1 stEmpty
                      [{ item_id := "12", size := "medium", quantity := 2 }]).state).2 }] :=
  push_equals_catchup menu1 stEmpty
    [{ item_id := "12", size := "medium", quantity := 2 }] (by decide) (by decide)

/-- C8: replaying the identical valid order payload twice leaves the
same stored state after the second call as after the first, both stores
hold exactly the single resolved line sequence, and each call persists
exactly its own snapshot — no accumulation. -/
theorem webhook_replay_idempotent
    (menu : List MenuItem) (st : ServerState) (items : List OrderItem)
    (hne : items ≠ []) (hres : (resolve_items menu items).2 = []) :
    (webhook_endpoint menu (webhook_endpoint menu st items).state items).state
      = (webhook_endpoint menu st items).state
    ∧ (webhook_endpoint menu st items).state.last_order_details
        = (resolve_items menu items).1
    ∧ (webhook_endpoint menu (webhook_endpoint menu st items).state items).state.last_order_details
        = (resolve_items menu items).1
    ∧ (webhook_endpoint menu st items).writes
        = [(webhook_endpoint menu st items).state]
    ∧ (webhook_endpoint menu (webhook_endpoint menu st items).state items).writes
        = [(webhook_endpoint menu (webhook_endpoint menu st items).state items).state] := by
  have h1 := webhook_success_case menu st items hne hres
  have h2 := webhook_success_case menu
    { st with last_order_details := (resolve_items menu items).1 } items hne hres
  rw [h1]
  rw [show ({ st with last_order_details := (resolve_items menu items).1 } : ServerState)
      = { resp := Resp.success
          state := { st with last_order_details := (resolve_items menu items).1 }
          writes := [{ st with last_order_details := (resolve_items menu items).1 }]
          events := [{ type := "order"
                       data := CurData.orderData (resolve_items menu items).1 }] : EndpointResult }.state
    from rfl] at h2
  rw [h2]
  exact ⟨rfl, rfl, rfl, rfl, rfl⟩

/-- Witness for C8 at the concrete two-Latte order. -/
theorem webhook_replay_idempotent_witness :
    (webhook_endpoint menu1 (webhook_endpoint menu1 stEmpty
        [{ item_id := "12", size := "medium", quantity := 2 }]).state
        [{ item_id := "12", size := "medium", quantity := 2 }]).state
      = (webhook_endpoint menu1 stEmpty
          [{ item_id := "12", size := "medium", quantity := 2 }]).state
    ∧ (webhook_endpoint menu1 stEmpty
        [{ item_id := "12", size := "medium", quantity := 2 }]).state.last_order_details
      = (resolve_items menu1 [{ item_id := "12", size := "medium", quantity := 2 }]).1 := by
  have h := webhook_replay_idempotent menu1 stEmpty
    [{ item_id := "12", size := "medium", quantity := 2 }] (by decide) (by decide)
  exact ⟨h.1, h.2.1⟩

/-- Counterexample to C1: starting from a state that displays a stored
order, the recommendations webhook succeeds, yet a subsequent `current()`
still answers with the order variant — `recommendations_endpoint` never
clears `last_order_details`, and `get_current` gives the order variant
priority, so the old variant is not discarded. -/
theorem recommendations_not_replacing_order_cex :
    (recommendations_endpoint menu1 stOrder "12").resp = Resp.success
    ∧ (get_current (recommendations_endpoint menu1 stOrder "12").state).1 = "order"
    ∧ (recommendations_endpoint menu1 stOrder "12").state.last_order_details
        = stOrder.last_order_details := by
  exact ⟨by decide, by decide, by decide⟩

/-- C1 (amended): after a successful POST /webhook, `current()` returns
the order variant with the new resolved lines regardless of the previous
variant; after a successful POST /recommendations the recommendations
are stored, but a previously stored order is NOT discarded — the two
variants coexist and `current()` answers with the recommendations
variant only when no order lines are stored, the order variant taking
priority otherwise. -/
theorem variant_priority_after_success
    (menu : List MenuItem) (st st2 : ServerState)
    (items : List OrderItem) (ids_str : String)
    (hw : (webhook_endpoint menu st items).resp = Resp.success)
    (hr : (recommendations_endpoint menu st2 ids_str).resp = Resp.success) :
    get_current (webhook_endpoint menu st items).state
      = ("order", CurData.orderData (resolve_items menu items).1)
    ∧ (recommendations_endpoint menu st2 ids_str).state.last_order_details
        = st2.last_order_details
    ∧ (recommendations_endpoint menu st2 ids_str).state.last_recommendations
        = (resolve_recs menu (parse_item_ids ids_str)).1
    ∧ (st2.last_order_details = [] →
        get_current (recommendations_endpoint menu st2 ids_str).state
          = ("recommendations", CurData.recData (resolve_recs menu (parse_item_ids ids_str)).1))
    ∧ (st2.last_order_details ≠ [] →
        get_current (recommendations_endpoint menu st2 ids_str).state
          = ("order", CurData.orderData st2.last_order_details)) := by
  obtain ⟨hne, hres, hd⟩ := webhook_success_inv menu st items hw
  obtain ⟨hpne, hpres, hprec⟩ := recommendations_success_inv menu st2 ids_str hr
  have hwc := webhook_success_case menu st items hne hres
  have hrc := recommendations_success_case menu st2 ids_str hpne hpres hprec
  refine ⟨?_, ?_, ?_, ?_, ?_⟩
  · rw [hwc]
    simp [get_current, hd]
  · rw [hrc]
  · rw [hrc]
  · intro hempty
    rw [hrc]
    simp [get_current, hempty, hprec]
  · intro hfull
    rw [hrc]
    simp [get_current, hfull]

/-- Witness for C1 (amended): a successful order webhook on the empty
state and a successful recommendations webhook on the order-holding
state; `current()` answers "order" after the former, and keeps answering
"order" after the latter. -/
theorem variant_priority_after_success_witness :
    get_current (webhook_endpoint menu1 stEmpty
        [{ item_id := "12", size := "medium", quantity := 2 }]).state
      = ("order", CurData.orderData
          (resolve_items menu1 [{ item_id := "12", size := "medium", quantity := 2 }]).1)
    ∧ (stOrder.last_order_details ≠ [] →
        get_current (recommendations_endpoint menu1 stOrder "12").state
          = ("order", CurData.orderData stOrder.last_order_details)) := by
  have h := variant_priority_after_success menu1 stEmpty stOrder
    [{ item_id := "12", size := "medium", quantity := 2 }] "12"
    (by decide) (by decide)
  exact ⟨h.1, h.2.2.2.2⟩

/-! Model of `WebSocketManager.broadcast` (main.py lines 891-899). A
viewer session is a connection id plus whether `send_text` to it
succeeds; the registered set is carried as a list (the iteration order
of the Python set). `broadcast` returns the successful deliveries and
the registered set after the disconnect sweep; it is a total function —
send failures are caught inside the loop and never escape to the
caller. -/

/-- A connected viewer session: connection id and whether sending to it
succeeds. -/
structure Session where
  sid : Nat
  sendOk : Bool
deriving DecidableEq, Repr

/-- The try/except send loop of `broadcast`: returns the deliveries made
and the `disconnected` list accumulated from send failures, in
iteration order. -/
def broadcastLoop (msg : Event) : List Session → List (Nat × Event) × List Session
  | [] => ([], [])
  | w :: rest =>
    let r := broadcastLoop msg rest
    if w.sendOk then ((w.sid, msg) :: r.1, r.2)
    else (r.1, w :: r.2)

/-- Embeds `WebSocketManager.broadcast`: run the send loop, then discard
every session that failed from the registered set. -/
def broadcast (ws : List Session) (msg : Event) : List (Nat × Event) × List Session :=
  let r := broadcastLoop msg ws
  (r.1, ws.filter (fun w => !(r.2.contains w)))

/-- The send loop delivers to exactly the sessions whose send succeeds
and collects exactly the failing ones. -/
lemma broadcastLoop_spec (msg : Event) (ws : List Session) :
    broadcastLoop msg ws
      = ((ws.filter (fun w => w.sendOk)).map (fun w => (w.sid, msg)),
         ws.filter (fun w => !w.sendOk)) := by
  induction ws with
  | nil => rfl
  | cons w rest ih =>
    by_cases h : w.sendOk = true <;> simp [broadcastLoop, List.filter, h, ih]

/-- C9: `broadcast` delivers the event to every registered session whose
send succeeds — a failure on one session does not abort or skip delivery
to any other — and afterwards exactly the failing sessions have been
removed from the registered set; the function is total, so no send
failure surfaces to the webhook caller. -/
theorem broadcast_isolates_failures (ws : List Session) (msg : Event) :
    (broadcast ws msg).1
      = (ws.filter (fun w => w.sendOk)).map (fun w => (w.sid, msg))
    ∧ (broadcast ws msg).2 = ws.filter (fun w => w.sendOk) := by
  unfold broadcast
  rw [broadcastLoop_spec]
  refine ⟨rfl, ?_⟩
  apply List.filter_congr
  intro w hw
  by_cases h : w.sendOk = true
  · simp [h, List.contains, List.elem_iff, List.mem_filter]
  · simp only [Bool.not_eq_true] at h
    simp [h, List.contains, List.elem_iff, List.mem_filter, hw]

/-! Model of two concurrently in-flight successful webhook requests
(claim C10). On the single asyncio event loop the assignment
`last_order_details = order_details` and the synchronous `save_state()`
(main.py lines 362-364) run with no intervening `await`, so no other
request can interleave between them: together they are one atomic step
`WStep.store`. The subsequent `await notify_clients(...)` (line 368) is
a separate step `WStep.notify` that other requests can interleave with.
A schedule is any interleaving of the two requests' step sequences;
request A (tag `true`) carries payload `ia`, request B (tag `false`)
payload `ib`, both assumed fully resolving. -/

/-- The two observable steps of a successful webhook request. -/
inductive WStep
  | store
  | notify
deriving DecidableEq, Repr

instance : Fintype WStep :=
  ⟨⟨{WStep.store, WStep.notify}, by decide⟩, fun x => by cases x <;> decide⟩

/-- Global system state seen by the interleaved requests: the in-memory
globals, the contents of the persisted state file, and the log of
broadcast events, each tagged with the request that sent it. -/
structure Sys where
  mem : ServerState
  file : ServerState
  events : List (Bool × Event)
deriving Repr

/-- One step of one request: `store` atomically replaces the order lines
and persists the snapshot (assignment plus `save_state`, no `await`
between them); `notify` broadcasts the request's own resolved lines. -/
def applyStep (menu : List MenuItem) (ia ib : List OrderItem) (s : Sys)
    (p : Bool × WStep) : Sys :=
  let lines := (resolve_items menu (if p.1 then ia else ib)).1
  match p.2 with
  | WStep.store =>
    let mem2 : ServerState := { s.mem with last_order_details := lines }
    { s with mem := mem2, file := mem2 }
  | WStep.notify =>
    { s with events := s.events ++ [(p.1, { type := "order", data := CurData.orderData lines })] }

/-- Run an interleaved schedule of the two requests' steps. -/
def runSched (menu : List MenuItem) (ia ib : List OrderItem)
    (sched : List (Bool × WStep)) (s0 : Sys) : Sys :=
  sched.foldl (applyStep menu ia ib) s0

/-- A schedule is valid when each of the two requests performs its store
and then its notify, in program order, interleaved arbitrarily. -/
def validSched (sched : List (Bool × WStep)) : Prop :=
  sched.filter (fun p => p.1) = [(true, WStep.store), (true, WStep.notify)]
  ∧ sched.filter (fun p => !p.1) = [(false, WStep.store), (false, WStep.notify)]

/-- Splitting a list by a boolean predicate preserves total length. -/
lemma length_filter_split {α : Type} (p : α → Bool) (l : List α) :
    (l.filter p).length + (l.filter (fun a => !(p a))).length = l.length := by
  induction l with
  | nil => rfl
  | cons a t ih => by_cases h : p a = true <;> simp [List.filter, h] <;> omega

/-- A valid schedule is one of the six interleavings of the two
two-step programs. -/
lemma validSched_cases (sched : List (Bool × WStep)) (hv : validSched sched) :
    sched = [(true, WStep.store), (true, WStep.notify), (false, WStep.store), (false, WStep.notify)]
    ∨ sched = [(true, WStep.store), (false, WStep.store), (true, WStep.notify), (false, WStep.notify)]
    ∨ sched = [(true, WStep.store), (false, WStep.store), (false, WStep.notify), (true, WStep.notify)]
    ∨ sched = [(false, WStep.store), (true, WStep.store), (true, WStep.notify), (false, WStep.notify)]
    ∨ sched = [(false, WStep.store), (true, WStep.store), (false, WStep.notify), (true, WStep.notify)]
    ∨ sched = [(false, WStep.store), (false, WStep.notify), (true, WStep.store), (true, WStep.notify)] := by
  have hlen : sched.length = 4 := by
    have h := length_filter_split (fun p : Bool × WStep => p.1) sched
    simp only [hv.1, hv.2] at h
    simpa using h.symm
  obtain ⟨a, b, c, d, rfl⟩ : ∃ a b c d, sched = [a, b, c, d] := by
    rcases sched with _ | ⟨a, _ | ⟨b, _ | ⟨c, _ | ⟨d, _ | ⟨e, t⟩⟩⟩⟩⟩ <;>
      simp only [List.length] at hlen <;> first
      | exact ⟨a, b, c, d, rfl⟩
      | omega
  clear hlen
  simp only [validSched] at hv
  revert hv
  revert a b c d
  decide

/-- C10: for any interleaving of two concurrently in-flight successful
order webhooks, the state replacement and its persist form one atomic
transition (no `await` separates them), so the persisted file always
equals the in-memory state; the final state is the payload of whichever
request stored later — a later request's replace is never overwritten by
the earlier request's persist — and every broadcast event carries
exactly the resolved lines that its own request stored and persisted,
never a mixture of the two transitions. -/
theorem concurrent_webhooks_consistent
    (menu : List MenuItem) (ia ib : List OrderItem) (s0 : Sys)
    (sched : List (Bool × WStep)) (hv : validSched sched) (h0 : s0.events = []) :
    (runSched menu ia ib sched s0).file = (runSched menu ia ib sched s0).mem
    ∧ ((runSched menu ia ib sched s0).mem.last_order_details = (resolve_items menu ia).1
        ∨ (runSched menu ia ib sched s0).mem.last_order_details = (resolve_items menu ib).1)
    ∧ (sched.indexOf (true, WStep.store) < sched.indexOf (false, WStep.store) →
        (runSched menu ia ib sched s0).mem.last_order_details = (resolve_items menu ib).1)
    ∧ (sched.indexOf (false, WStep.store) < sched.indexOf (true, WStep.store) →
        (runSched menu ia ib sched s0).mem.last_order_details = (resolve_items menu ia).1)
    ∧ (∀ e ∈ (runSched menu ia ib sched s0).events,
        e.2 = { type := "order"
                data := CurData.orderData (resolve_items menu (if e.1 then ia else ib)).1 }) := by
  rcases validSched_cases sched hv with rfl | rfl | rfl | rfl | rfl | rfl <;>
    refine ⟨rfl, ?_, ?_, ?_, ?_⟩ <;>
    first
      | exact Or.inl rfl
      | exact Or.inr rfl
      | (intro hlt; first | rfl | exact absurd hlt (by decide))
      | (intro e he
         simp only [runSched, List.foldl, applyStep, h0, List.nil_append, List.cons_append,
           List.append_nil, List.mem_cons, List.mem_singleton, List.not_mem_nil, or_false] at he
         rcases he with rfl | rfl <;> rfl)

/-- Witness for C10: the fully interleaved schedule in which request A
stores first but request B both stores and notifies before A's notify;
the later store (B's) wins and each event matches its own store. -/
theorem concurrent_webhooks_consistent_witness :
    (runSched menu1 [{ item_id := "12", size := "medium", quantity := 2 }]
        [{ item_id := "Latte", size := "small", quantity := 1 }]
        [(true, WStep.store), (false, WStep.store), (false, WStep.notify), (true, WStep.notify)]
        { mem := stEmpty, file := stEmpty, events := [] }).file
      = (runSched menu1 [{ item_id := "12", size := "medium", quantity := 2 }]
          [{ item_id := "Latte", size := "small", quantity := 1 }]
          [(true, WStep.store), (false, WStep.store), (false, WStep.notify), (true, WStep.notify)]
          { mem := stEmpty, file := stEmpty, events := [] }).mem
    ∧ ([(true, WStep.store), (false, WStep.store), (false, WStep.notify),
          (true, WStep.notify)].indexOf (true, WStep.store)
        < [(true, WStep.store), (false, WStep.store), (false, WStep.notify),
            (true, WStep.notify)].indexOf (false, WStep.store) →
        (runSched menu1 [{ item_id := "12", size := "medium", quantity := 2 }]
            [{ item_id := "Latte", size := "small", quantity := 1 }]
            [(true, WStep.store), (false, WStep.store), (false, WStep.notify), (true, WStep.notify)]
            { mem := stEmpty, file := stEmpty, events := [] }).mem.last_order_details
          = (resolve_items menu1 [{ item_id := "Latte", size := "small", quantity := 1 }]).1) := by
  have h := concurrent_webhooks_consistent menu1
    [{ item_id := "12", size := "medium", quantity := 2 }]
    [{ item_id := "Latte", size := "small", quantity := 1 }]
    { mem := stEmpty, file := stEmpty, events := [] }
    [(true, WStep.store), (false, WStep.store), (false, WStep.notify), (true, WStep.notify)]
    (by constructor <;> decide) rfl
  exact ⟨h.1, h.2.2.1⟩

end VoiceHub
